import Mathlib

/-!
Shallow embedding of `src/OsvrRenderingPlugin.cpp` (the OSVR-Unity rendering
plugin).  The plugin's process-wide globals become the fields of `PluginState`,
external collaborators (the Unity graphics interface, the OSVR render-manager
library, Direct3D and OpenGL) become an oracle record `Env`, and the observable
side effects of each entry point (resource copies, present calls, native
creation and deletion calls, handler invocations) are recorded as a trace of
`Action`s.  Heap-owned objects (the render-manager instance, the OpenGL
render-buffer wrappers) are tracked by identifier in an `allocated` list so
that a `delete` of an already-deleted object, or a method call through a null
or dangling pointer, is an observable fault: every entry point that can fault
returns an `Option`, with `none` standing for undefined behaviour.
Double-valued quantities that the claims only pass through (viewport
dimensions) are modelled as integers.
-/

namespace Osvr

/-- The Unity renderer kinds (`UnityGfxRenderer` in `IUnityGraphics.h`) that the
plugin compares against.  Each constructor corresponds to a distinct numeric
enumerator value, given by `rendererVal`; the enumeration has no negative
value, which is what decides the dead `s_DeviceType == -1` guards. -/
inductive UnityGfxRenderer where
  | kUnityGfxRendererOpenGL
  | kUnityGfxRendererD3D9
  | kUnityGfxRendererD3D11
  | kUnityGfxRendererGCM
  | kUnityGfxRendererNull
  | kUnityGfxRendererMetal
  | kUnityGfxRendererOpenGLCore
  | kUnityGfxRendererD3D12
deriving DecidableEq

/-- Numeric value of each `UnityGfxRenderer` enumerator, as in the Unity
header. -/
def rendererVal : UnityGfxRenderer → Int
  | .kUnityGfxRendererOpenGL => 0
  | .kUnityGfxRendererD3D9 => 1
  | .kUnityGfxRendererD3D11 => 2
  | .kUnityGfxRendererGCM => 3
  | .kUnityGfxRendererNull => 4
  | .kUnityGfxRendererMetal => 16
  | .kUnityGfxRendererOpenGLCore => 17
  | .kUnityGfxRendererD3D12 => 18

/-- The Unity graphics-device event kinds.  `kUnityGfxDeviceEventInit` models
the header's `kUnityGfxDeviceEventInitialize` (name shortened). -/
inductive UnityGfxDeviceEventType where
  | kUnityGfxDeviceEventInit
  | kUnityGfxDeviceEventShutdown
  | kUnityGfxDeviceEventBeforeReset
  | kUnityGfxDeviceEventAfterReset
deriving DecidableEq

/-- `osvr::renderkit::OSVR_ViewportDescription`; the `double` fields are
modelled as integers since the plugin only passes them through. -/
structure OSVR_ViewportDescription where
  left : Int
  lower : Int
  width : Int
  height : Int
deriving DecidableEq

/-- `osvr::renderkit::GraphicsLibraryD3D11`: the captured native device and
immediate-context handles, as opaque identifiers. -/
structure GraphicsLibraryD3D11 where
  device : Nat
  context : Nat
deriving DecidableEq

/-- One entry of the render-manager's `RenderInfo` vector: viewport, projection
parameters and pose (opaque tokens), and the graphics-library pointer used by
the D3D11 buffer factory (`none` models a null `library.D3D11`). -/
structure RenderInfo where
  viewport : OSVR_ViewportDescription
  projection : Nat
  pose : Nat
  library : Option GraphicsLibraryD3D11
deriving DecidableEq

/-- `osvr::renderkit::RenderBufferD3D11`: the created color texture and its
render-target view, as opaque identifiers. -/
structure RenderBufferD3D11 where
  colorBuffer : Nat
  colorBufferView : Nat
deriving DecidableEq

/-- `osvr::renderkit::RenderBufferOpenGL`: the heap-allocated wrapper object
(`objId`, tracked for delete/double-delete) and the GL color buffer name. -/
structure RenderBufferOpenGL where
  objId : Nat
  colorBufferName : Nat
deriving DecidableEq

/-- `osvr::renderkit::RenderBuffer`: a union-like record whose `D3D11` and
`OpenGL` pointers are each possibly null. -/
structure RenderBuffer where
  D3D11 : Option RenderBufferD3D11 := none
  OpenGL : Option RenderBufferOpenGL := none
deriving DecidableEq

/-- The DXGI formats mentioned by the source (zeroed descriptors start at
`DXGI_FORMAT_UNKNOWN`). -/
inductive DXGIFormat where
  | DXGI_FORMAT_UNKNOWN
  | DXGI_FORMAT_R8G8B8A8_UNORM
  | DXGI_FORMAT_R32G32B32A32_FLOAT
deriving DecidableEq

def D3D11_USAGE_DEFAULT : Nat := 0
def D3D11_BIND_SHADER_RESOURCE : Nat := 8
def D3D11_BIND_RENDER_TARGET : Nat := 32
def D3D11_RTV_DIMENSION_TEXTURE2D : Nat := 4

/-- The fields of `D3D11_TEXTURE2D_DESC` that the source fills in. -/
structure D3D11_TEXTURE2D_DESC where
  Width : Int
  Height : Int
  MipLevels : Nat
  ArraySize : Nat
  Format : DXGIFormat
  SampleCount : Nat
  SampleQuality : Nat
  Usage : Nat
  BindFlags : Nat
  CPUAccessFlags : Nat
  MiscFlags : Nat
deriving DecidableEq

/-- The fields of `D3D11_RENDER_TARGET_VIEW_DESC` that the source fills in. -/
structure D3D11_RENDER_TARGET_VIEW_DESC where
  Format : DXGIFormat
  ViewDimension : Nat
  MipSlice : Nat
deriving DecidableEq

/-- `OSVR_ReturnCode` (also used for the plain `int` returns built from the
same two constants). -/
inductive OSVR_ReturnCode where
  | OSVR_RETURN_SUCCESS
  | OSVR_RETURN_FAILURE
deriving DecidableEq

/-- Observable external side effects of the plugin's entry points. -/
inductive Action where
  | omSetRenderTargets (view : Nat)
  | copyResource (dst : Nat) (src : Nat)
  | presentBuffers (bufs : List RenderBuffer) (flipY : Bool)
  | createRenderManagerCall
  | openDisplayCall (ok : Bool)
  | getRenderInfoCall
  | createTexture2DCall (desc : D3D11_TEXTURE2D_DESC) (result : Option Nat)
  | createRenderTargetViewCall (tex : Nat) (desc : D3D11_RENDER_TARGET_VIEW_DESC)
      (result : Option Nat)
  | glewInitCall (ok : Bool)
  | clientUpdateCall
  | genFramebuffersCall
  | bindFramebufferCall (fb : Nat)
  | genRenderbuffersCall (nm : Nat)
  | bindTextureCall (nm : Nat)
  | texImage2DCall (w : Int) (h : Int)
  | texParameterCalls
  | bindRenderbufferCall (nm : Nat)
  | renderbufferStorageCall (w : Int) (h : Int)
  | framebufferTextureCall (colorBuffer : Nat)
  | drawBuffersCall
  | viewportCall
  | projectionMatrixCall
  | modelViewMatrixCall
  | clearCall
  | deleteFramebuffersCall (fb : Nat)
  | deleteTexturesCall (nm : Nat)
  | deleteManagerCall (p : Option Nat)
  | invokeGLHandler (ev : UnityGfxDeviceEventType)
  | invokeD3DHandler (ev : UnityGfxDeviceEventType)
deriving DecidableEq

/-- The plugin's process-wide mutable globals.  `render` is the raw
render-manager pointer (`none` = null; a `some` value may be dangling:
liveness is `p ∈ allocated`).  Texture pointers are raw addresses with `0`
for null.  `frameBuffer` is `none` until `glGenFramebuffers` has run. -/
structure PluginState where
  s_DeviceType : UnityGfxRenderer
  render : Option Nat
  allocated : List Nat
  clientContext : Nat
  renderBuffers : List RenderBuffer
  renderInfo : List RenderInfo
  library : Option GraphicsLibraryD3D11
  leftEyeTexturePtr : Nat
  rightEyeTexturePtr : Nat
  frameBuffer : Option Nat
  textureDesc : D3D11_TEXTURE2D_DESC
  nextId : Nat
deriving DecidableEq

/-- Oracle for the external collaborators: what the Unity interface and the
render-manager/native graphics calls return during one entry point. -/
structure Env where
  getRenderer : UnityGfxRenderer
  createRenderManagerResult : Option Nat
  doingOkay : Bool
  openDisplayOk : Bool
  getRenderInfo : List RenderInfo
  createTexture2DResult : Option Nat
  createRenderTargetViewResult : Option Nat
  presentOk : Bool
  glewOk : Bool
  framebufferComplete : Bool
  getDevice : Nat
  getImmediateContext : Nat
deriving DecidableEq

/-- Dereference the `render` pointer for a method call: faults (`none`) when
the pointer is null or points at an already-deleted object. -/
def derefManager (st : PluginState) : Option Nat :=
  match st.render with
  | none => none
  | some p => if p ∈ st.allocated then some p else none

/-- C++ `delete` on the manager pointer: deleting a null pointer is a no-op,
deleting a live object removes it, deleting a dangling pointer is a fault. -/
def deleteManager (render : Option Nat) (allocated : List Nat) : Option (List Nat) :=
  match render with
  | none => some allocated
  | some p => if p ∈ allocated then some (allocated.erase p) else none

/-- `CreateRenderManagerFromUnity` (source lines 200-223): store the client
context, construct the render manager, bail out on a null/not-okay manager,
open the display, bail out on open failure, otherwise fetch the initial
render info. -/
def CreateRenderManagerFromUnity (env : Env) (context : Nat) (st : PluginState) :
    OSVR_ReturnCode × List Action × PluginState :=
  let st1 := { st with clientContext := context }
  match env.createRenderManagerResult with
  | none =>
    (.OSVR_RETURN_FAILURE, [Action.createRenderManagerCall], { st1 with render := none })
  | some p =>
    let st2 := { st1 with render := some p, allocated := p :: st1.allocated }
    if !env.doingOkay then
      (.OSVR_RETURN_FAILURE, [Action.createRenderManagerCall], st2)
    else if !env.openDisplayOk then
      (.OSVR_RETURN_FAILURE, [Action.createRenderManagerCall, Action.openDisplayCall false], st2)
    else
      (.OSVR_RETURN_SUCCESS,
        [Action.createRenderManagerCall, Action.openDisplayCall true, Action.getRenderInfoCall],
        { st2 with renderInfo := env.getRenderInfo })

/-- Loop body of the Shutdown OpenGL branch (source lines 259-263): for each
index below `renderInfo.size()`, delete the GL color texture and `delete` the
heap wrapper `renderBuffers[i].OpenGL` (double delete faults). -/
def shutdownGLBuffers (buffers : List RenderBuffer) (allocated : List Nat) (idxs : List Nat) :
    Option (List Action × List Nat) :=
  match idxs with
  | [] => some ([], allocated)
  | i :: rest =>
    match buffers.get? i with
    | none => none
    | some rb =>
      match rb.OpenGL with
      | none => none
      | some rbGL =>
        if rbGL.objId ∈ allocated then
          match shutdownGLBuffers buffers (allocated.erase rbGL.objId) rest with
          | none => none
          | some r => some (Action.deleteTexturesCall rbGL.colorBufferName :: r.1, r.2)
        else none

/-- `Shutdown` (source lines 244-269).  D3D11 branch: null the two cached
texture pointers and `delete render` -- note the pointer itself is left
unchanged (no null sentinel) and `s_DeviceType` is not touched.  OpenGL
branch: delete the framebuffer and every registered buffer's texture and
wrapper.  Any other device type: log only. -/
def Shutdown (st : PluginState) : Option (List Action × PluginState) :=
  match st.s_DeviceType with
  | .kUnityGfxRendererD3D11 =>
    let st1 := { st with rightEyeTexturePtr := 0, leftEyeTexturePtr := 0 }
    match deleteManager st1.render st1.allocated with
    | none => none
    | some alloc => some ([Action.deleteManagerCall st1.render], { st1 with allocated := alloc })
  | .kUnityGfxRendererOpenGL =>
    match shutdownGLBuffers st.renderBuffers st.allocated (List.range st.renderInfo.length) with
    | none => none
    | some r =>
      some (Action.deleteFramebuffersCall (st.frameBuffer.getD 0) :: r.1,
        { st with allocated := r.2 })
  | _ => some ([], st)

/-- `ConstructBuffersOpenGL` (source lines 271-358): glew setup, client update,
render-info refresh, on eye 0 only a shared framebuffer generation, then the
color buffer (generated, pushed onto `renderBuffers`, sized from the eye's
viewport) and a depth buffer of the same size. -/
def ConstructBuffersOpenGL (env : Env) (eye : Int) (st : PluginState) :
    Option (List Action × PluginState) :=
  let glewActs := [Action.glewInitCall env.glewOk, Action.clientUpdateCall]
  match derefManager st with
  | none => none
  | some _ =>
    let st1 := { st with renderInfo := env.getRenderInfo }
    let fbStep : List Action × PluginState :=
      if eye = 0 then
        ([Action.genFramebuffersCall, Action.bindFramebufferCall st1.nextId],
          { st1 with frameBuffer := some st1.nextId, nextId := st1.nextId + 1 })
      else ([], st1)
    let st2 := fbStep.2
    match (if eye < 0 then none else st2.renderInfo.get? eye.toNat) with
    | none => none
    | some ri =>
      let colorBufferName := st2.nextId
      let objId := st2.nextId + 1
      let st3 := { st2 with
        nextId := st2.nextId + 2,
        allocated := objId :: st2.allocated,
        renderBuffers := st2.renderBuffers ++
          [({ D3D11 := none,
              OpenGL := some { objId := objId, colorBufferName := colorBufferName } } :
            RenderBuffer)] }
      let colorActs := [Action.genRenderbuffersCall colorBufferName,
        Action.bindTextureCall colorBufferName,
        Action.texImage2DCall ri.viewport.width ri.viewport.height,
        Action.texParameterCalls]
      let depthBufferName := st3.nextId
      let st4 := { st3 with nextId := st3.nextId + 1 }
      let depthActs := [Action.genRenderbuffersCall depthBufferName,
        Action.bindRenderbufferCall depthBufferName,
        Action.renderbufferStorageCall ri.viewport.width ri.viewport.height]
      some (glewActs ++ fbStep.1 ++ colorActs ++ depthActs, st4)

/-- `ConstructBuffersD3D11` (source lines 360-426): refresh render info, build
the texture descriptor (stored in the global `textureDesc`), create the color
texture (failure: return failure, nothing registered), create the matching
render-target view (failure: return failure, nothing registered), else push
the completed buffer onto the end of `renderBuffers`. -/
def ConstructBuffersD3D11 (env : Env) (eye : Int) (st : PluginState) :
    Option (OSVR_ReturnCode × List Action × PluginState) :=
  match derefManager st with
  | none => none
  | some _ =>
    let st1 := { st with renderInfo := env.getRenderInfo }
    match (if eye < 0 then none else st1.renderInfo.get? eye.toNat) with
    | none => none
    | some ri =>
      let textureDesc : D3D11_TEXTURE2D_DESC :=
        { Width := ri.viewport.width, Height := ri.viewport.height,
          MipLevels := 1, ArraySize := 1,
          Format := .DXGI_FORMAT_R8G8B8A8_UNORM,
          SampleCount := 1, SampleQuality := 0,
          Usage := D3D11_USAGE_DEFAULT,
          BindFlags := D3D11_BIND_RENDER_TARGET + D3D11_BIND_SHADER_RESOURCE,
          CPUAccessFlags := 0, MiscFlags := 0 }
      let st2 := { st1 with textureDesc := textureDesc }
      match ri.library with
      | none => none
      | some _ =>
        match env.createTexture2DResult with
        | none =>
          some (.OSVR_RETURN_FAILURE, [Action.createTexture2DCall textureDesc none], st2)
        | some texId =>
          let renderTargetViewDesc : D3D11_RENDER_TARGET_VIEW_DESC :=
            { Format := .DXGI_FORMAT_R8G8B8A8_UNORM,
              ViewDimension := D3D11_RTV_DIMENSION_TEXTURE2D, MipSlice := 0 }
          match env.createRenderTargetViewResult with
          | none =>
            some (.OSVR_RETURN_FAILURE,
              [Action.createTexture2DCall textureDesc (some texId),
                Action.createRenderTargetViewCall texId renderTargetViewDesc none], st2)
          | some viewId =>
            some (.OSVR_RETURN_SUCCESS,
              [Action.createTexture2DCall textureDesc (some texId),
                Action.createRenderTargetViewCall texId renderTargetViewDesc (some viewId)],
              { st2 with renderBuffers := st2.renderBuffers ++
                  [({ D3D11 := some { colorBuffer := texId, colorBufferView := viewId },
                      OpenGL := none } : RenderBuffer)] })

/-- The texture-pointer store at the top of `SetColorBufferFromUnity`
(source lines 561-568): eye 0 stores the left pointer, any other eye the
right pointer. -/
def setEyeTexturePtr (texturePtr : Nat) (eye : Int) (st : PluginState) : PluginState :=
  if eye = 0 then { st with leftEyeTexturePtr := texturePtr }
  else { st with rightEyeTexturePtr := texturePtr }

/-- `SetColorBufferFromUnity` (source lines 556-582): dead `-1` guard, store
the pointer, dispatch buffer construction on the device type (its return value
is discarded), unsupported device types return failure. -/
def SetColorBufferFromUnity (env : Env) (texturePtr : Nat) (eye : Int) (st : PluginState) :
    Option (OSVR_ReturnCode × List Action × PluginState) :=
  if rendererVal st.s_DeviceType = -1 then some (.OSVR_RETURN_FAILURE, [], st)
  else
    let st1 := setEyeTexturePtr texturePtr eye st
    match st1.s_DeviceType with
    | .kUnityGfxRendererD3D11 =>
      match ConstructBuffersD3D11 env eye st1 with
      | none => none
      | some r => some (.OSVR_RETURN_SUCCESS, r.2.1, r.2.2)
    | .kUnityGfxRendererOpenGL =>
      match ConstructBuffersOpenGL env eye st1 with
      | none => none
      | some r => some (.OSVR_RETURN_SUCCESS, r.1, r.2)
    | _ => some (.OSVR_RETURN_FAILURE, [], st1)

/-- `RenderViewD3D11` (source lines 466-474): set the render target, pick the
cached host texture for the eye, and copy it into the eye's color buffer. -/
def RenderViewD3D11 (st : PluginState) (ri : RenderInfo) (renderTargetView : Nat)
    (eyeIndex : Nat) : Option (List Action) :=
  match ri.library with
  | none => none
  | some _ =>
    let d3dtex := if eyeIndex = 0 then st.leftEyeTexturePtr else st.rightEyeTexturePtr
    match st.renderBuffers.get? eyeIndex with
    | none => none
    | some rb =>
      match rb.D3D11 with
      | none => none
      | some rbd =>
        some [Action.omSetRenderTargets renderTargetView,
          Action.copyResource rbd.colorBuffer d3dtex]

/-- The D3D11 per-eye loop of `OnRenderEvent` (source lines 605-607): index i
walks the render-info list, reading `renderBuffers[i].D3D11->colorBufferView`
at each call site. -/
def renderEachD3D11 (st : PluginState) (ris : List RenderInfo) (i : Nat) :
    Option (List Action) :=
  match ris with
  | [] => some []
  | ri :: rest =>
    match st.renderBuffers.get? i with
    | none => none
    | some rb =>
      match rb.D3D11 with
      | none => none
      | some rbd =>
        match RenderViewD3D11 st ri rbd.colorBufferView i with
        | none => none
        | some acts =>
          match renderEachD3D11 st rest (i + 1) with
          | none => none
          | some acts2 => some (acts ++ acts2)

/-- `RenderViewOpenGL` (source lines 477-546): bind the framebuffer, attach the
color buffer, set draw buffers; if the framebuffer is incomplete, log and
return early; otherwise set viewport/projection/model-view, clear, and bind
the eye's color texture. -/
def RenderViewOpenGL (env : Env) (st : PluginState) (fb : Nat) (colorBuffer : Nat)
    (eyeIndex : Nat) : Option (List Action) :=
  let pre := [Action.bindFramebufferCall fb, Action.framebufferTextureCall colorBuffer,
    Action.drawBuffersCall]
  if !env.framebufferComplete then some pre
  else
    match st.renderBuffers.get? eyeIndex with
    | none => none
    | some rb =>
      match rb.OpenGL with
      | none => none
      | some rbGL =>
        some (pre ++ [Action.viewportCall, Action.projectionMatrixCall,
          Action.modelViewMatrixCall, Action.clearCall,
          Action.bindTextureCall rbGL.colorBufferName])

/-- The OpenGL per-eye loop of `OnRenderEvent` (source lines 624-626), reading
`renderBuffers[i].OpenGL->colorBufferName` at each call site. -/
def renderEachOpenGL (env : Env) (st : PluginState) (ris : List RenderInfo) (i : Nat) :
    Option (List Action) :=
  match ris with
  | [] => some []
  | _ :: rest =>
    match st.renderBuffers.get? i with
    | none => none
    | some rb =>
      match rb.OpenGL with
      | none => none
      | some rbGL =>
        match RenderViewOpenGL env st (st.frameBuffer.getD 0) rbGL.colorBufferName i with
        | none => none
        | some acts =>
          match renderEachOpenGL env st rest (i + 1) with
          | none => none
          | some acts2 => some (acts ++ acts2)

/-- `OnRenderEvent` (source lines 590-641): dead `-1` guard; event 0 refreshes
the render info through the (possibly null or dangling) manager pointer, runs
the backend-specific per-eye loop and presents -- with the vertical flip flag
`true` on the D3D11 path and the default `false` on the OpenGL path; event 1
runs `Shutdown`; any other event is ignored. -/
def OnRenderEvent (env : Env) (eventID : Int) (st : PluginState) :
    Option (List Action × PluginState) :=
  if rendererVal st.s_DeviceType = -1 then some ([], st)
  else if eventID = 0 then
    match derefManager st with
    | none => none
    | some _ =>
      let st1 := { st with renderInfo := env.getRenderInfo }
      if st1.s_DeviceType = .kUnityGfxRendererD3D11 then
        match renderEachD3D11 st1 st1.renderInfo 0 with
        | none => none
        | some acts =>
          some (acts ++ [Action.presentBuffers st1.renderBuffers true], st1)
      else if st1.s_DeviceType = .kUnityGfxRendererOpenGL then
        let st2 := { st1 with renderInfo := env.getRenderInfo }
        match renderEachOpenGL env st2 st2.renderInfo 0 with
        | none => none
        | some acts =>
          some (acts ++ [Action.presentBuffers st2.renderBuffers false], st2)
      else some ([], st1)
  else if eventID = 1 then Shutdown st
  else some ([], st)

/-- `DoEventGraphicsDeviceD3D11` (source lines 654-675): on the Init event,
capture the device and immediate context into the global `library`; on the
Shutdown event, `delete render` (again without a null sentinel). -/
def DoEventGraphicsDeviceD3D11 (env : Env) (eventType : UnityGfxDeviceEventType)
    (st : PluginState) : Option (List Action × PluginState) :=
  match eventType with
  | .kUnityGfxDeviceEventInit =>
    some ([], { st with
      library := some { device := env.getDevice, context := env.getImmediateContext } })
  | .kUnityGfxDeviceEventShutdown =>
    match deleteManager st.render st.allocated with
    | none => none
    | some alloc =>
      some ([Action.deleteManagerCall st.render], { st with allocated := alloc })
  | _ => some ([], st)

/-- `DoEventGraphicsDeviceOpenGL` (source lines 684-702): logging only. -/
def DoEventGraphicsDeviceOpenGL (_eventType : UnityGfxDeviceEventType) (st : PluginState) :
    List Action × PluginState :=
  ([], st)

/-- `OnGraphicsDeviceEvent` (source lines 153-196): capture the device type at
entry; the Init event stores (and re-captures) the freshly queried renderer,
the Shutdown event resets the stored type to null (but dispatches on the
captured value), the reset events only log; then forward to the OpenGL and
D3D11 handlers when the captured type matches. -/
def OnGraphicsDeviceEvent (env : Env) (eventType : UnityGfxDeviceEventType)
    (st : PluginState) : Option (List Action × PluginState) :=
  let step : PluginState × UnityGfxRenderer :=
    match eventType with
    | .kUnityGfxDeviceEventInit =>
      ({ st with s_DeviceType := env.getRenderer }, env.getRenderer)
    | .kUnityGfxDeviceEventShutdown =>
      ({ st with s_DeviceType := .kUnityGfxRendererNull }, st.s_DeviceType)
    | _ => (st, st.s_DeviceType)
  let currentDeviceType := step.2
  let glStep : List Action × PluginState :=
    if currentDeviceType = .kUnityGfxRendererOpenGL then
      let r := DoEventGraphicsDeviceOpenGL eventType step.1
      (Action.invokeGLHandler eventType :: r.1, r.2)
    else ([], step.1)
  if currentDeviceType = .kUnityGfxRendererD3D11 then
    match DoEventGraphicsDeviceD3D11 env eventType glStep.2 with
    | none => none
    | some r => some (glStep.1 ++ Action.invokeD3DHandler eventType :: r.1, r.2)
  else some (glStep.1, glStep.2)

/-! Concrete fixtures used by the closed evaluation theorems below. -/

/-- A render-info entry with a D3D11 graphics library attached. -/
def riD3D : RenderInfo :=
  { viewport := { left := 0, lower := 0, width := 640, height := 720 },
    projection := 0, pose := 0, library := some { device := 7, context := 8 } }

/-- A registered D3D11 render buffer with the given texture and view ids. -/
def bufD3D (t v : Nat) : RenderBuffer :=
  { D3D11 := some { colorBuffer := t, colorBufferView := v }, OpenGL := none }

/-- An environment in which every external call succeeds. -/
def envBase : Env :=
  { getRenderer := .kUnityGfxRendererD3D11, createRenderManagerResult := some 1,
    doingOkay := true, openDisplayOk := true, getRenderInfo := [riD3D, riD3D],
    createTexture2DResult := some 10, createRenderTargetViewResult := some 11,
    presentOk := true, glewOk := true, framebufferComplete := true,
    getDevice := 7, getImmediateContext := 8 }

/-- The zeroed texture descriptor (the `memset` starting point). -/
def zeroDesc : D3D11_TEXTURE2D_DESC :=
  ⟨0, 0, 0, 0, .DXGI_FORMAT_UNKNOWN, 0, 0, 0, 0, 0, 0⟩

/-- A healthy running D3D11 session: live manager (id 1), two constructed eye
buffers, both host texture pointers registered. -/
def stLive : PluginState :=
  { s_DeviceType := .kUnityGfxRendererD3D11, render := some 1, allocated := [1],
    clientContext := 0, renderBuffers := [bufD3D 10 11, bufD3D 12 13],
    renderInfo := [riD3D, riD3D], library := some { device := 7, context := 8 },
    leftEyeTexturePtr := 100, rightEyeTexturePtr := 101,
    frameBuffer := none, textureDesc := zeroDesc, nextId := 20 }

/-- `stLive` with no buffers registered yet. -/
def stNoBufs : PluginState := { stLive with renderBuffers := [] }

/-- `stLive` with the stored device type at the null renderer kind. -/
def stNullKind : PluginState := { stLive with s_DeviceType := .kUnityGfxRendererNull }

/-! Helper lemmas shared by the claim theorems. -/

/-- No `UnityGfxRenderer` enumerator has value `-1`, so the source's
`s_DeviceType == -1` guards are dead. -/
theorem rendererVal_ne_neg_one (r : UnityGfxRenderer) : ¬ rendererVal r = -1 := by
  cases r <;> decide

/-- Dereferencing a live manager pointer succeeds. -/
theorem derefManager_some (st : PluginState) (p : Nat)
    (hr : st.render = some p) (hp : p ∈ st.allocated) : derefManager st = some p := by
  simp [derefManager, hr, hp]

/-- The texture-pointer store leaves the device type unchanged. -/
theorem setEyeTexturePtr_s_DeviceType (texturePtr : Nat) (eye : Int) (st : PluginState) :
    (setEyeTexturePtr texturePtr eye st).s_DeviceType = st.s_DeviceType := by
  unfold setEyeTexturePtr; split <;> rfl

/-- The texture-pointer store leaves the manager pointer unchanged. -/
theorem setEyeTexturePtr_render (texturePtr : Nat) (eye : Int) (st : PluginState) :
    (setEyeTexturePtr texturePtr eye st).render = st.render := by
  unfold setEyeTexturePtr; split <;> rfl

/-- The texture-pointer store leaves the allocation set unchanged. -/
theorem setEyeTexturePtr_allocated (texturePtr : Nat) (eye : Int) (st : PluginState) :
    (setEyeTexturePtr texturePtr eye st).allocated = st.allocated := by
  unfold setEyeTexturePtr; split <;> rfl

/-- Eye 0 stores the left texture pointer. -/
theorem setEyeTexturePtr_left (texturePtr : Nat) (eye : Int) (st : PluginState)
    (h : eye = 0) : (setEyeTexturePtr texturePtr eye st).leftEyeTexturePtr = texturePtr := by
  simp [setEyeTexturePtr, h]

/-- Any nonzero eye stores the right texture pointer. -/
theorem setEyeTexturePtr_right (texturePtr : Nat) (eye : Int) (st : PluginState)
    (h : ¬ eye = 0) : (setEyeTexturePtr texturePtr eye st).rightEyeTexturePtr = texturePtr := by
  simp [setEyeTexturePtr, h]

/-- The texture descriptor `ConstructBuffersD3D11` fills in for an eye's
viewport: 8-bit-per-channel 4-component unsigned-normalized format, render
target plus shader resource. -/
def eyeTextureDesc (ri : RenderInfo) : D3D11_TEXTURE2D_DESC :=
  { Width := ri.viewport.width, Height := ri.viewport.height,
    MipLevels := 1, ArraySize := 1,
    Format := .DXGI_FORMAT_R8G8B8A8_UNORM,
    SampleCount := 1, SampleQuality := 0,
    Usage := D3D11_USAGE_DEFAULT,
    BindFlags := D3D11_BIND_RENDER_TARGET + D3D11_BIND_SHADER_RESOURCE,
    CPUAccessFlags := 0, MiscFlags := 0 }

/-- The render-target-view descriptor `ConstructBuffersD3D11` fills in. -/
def eyeRTVDesc : D3D11_RENDER_TARGET_VIEW_DESC :=
  { Format := .DXGI_FORMAT_R8G8B8A8_UNORM,
    ViewDimension := D3D11_RTV_DIMENSION_TEXTURE2D, MipSlice := 0 }

/-- Characterization of `ConstructBuffersD3D11` when the color-texture
creation fails: failure code, nothing registered. -/
theorem constructBuffersD3D11_texFail (env : Env) (eye : Int) (st : PluginState)
    (p : Nat) (ri : RenderInfo)
    (hr : st.render = some p) (hp : p ∈ st.allocated) (h0 : ¬ eye < 0)
    (hri : env.getRenderInfo.get? eye.toNat = some ri) (hlib : ri.library.isSome)
    (htex : env.createTexture2DResult = none) :
    ConstructBuffersD3D11 env eye st =
      some (.OSVR_RETURN_FAILURE, [Action.createTexture2DCall (eyeTextureDesc ri) none],
        { st with renderInfo := env.getRenderInfo, textureDesc := eyeTextureDesc ri }) := by
  obtain ⟨lib, hlib⟩ := Option.isSome_iff_exists.mp hlib
  simp only [List.get?_eq_getElem?] at hri
  simp [ConstructBuffersD3D11, derefManager, hr, hp, h0, hri, hlib, htex, eyeTextureDesc]

/-- Characterization of `ConstructBuffersD3D11` when the view creation fails:
failure code, nothing registered (the created texture is abandoned). -/
theorem constructBuffersD3D11_viewFail (env : Env) (eye : Int) (st : PluginState)
    (p : Nat) (ri : RenderInfo) (t : Nat)
    (hr : st.render = some p) (hp : p ∈ st.allocated) (h0 : ¬ eye < 0)
    (hri : env.getRenderInfo.get? eye.toNat = some ri) (hlib : ri.library.isSome)
    (htex : env.createTexture2DResult = some t)
    (hrtv : env.createRenderTargetViewResult = none) :
    ConstructBuffersD3D11 env eye st =
      some (.OSVR_RETURN_FAILURE,
        [Action.createTexture2DCall (eyeTextureDesc ri) (some t),
          Action.createRenderTargetViewCall t eyeRTVDesc none],
        { st with renderInfo := env.getRenderInfo, textureDesc := eyeTextureDesc ri }) := by
  obtain ⟨lib, hlib⟩ := Option.isSome_iff_exists.mp hlib
  simp only [List.get?_eq_getElem?] at hri
  simp [ConstructBuffersD3D11, derefManager, hr, hp, h0, hri, hlib, htex, hrtv,
    eyeTextureDesc, eyeRTVDesc]

/-- Characterization of `ConstructBuffersD3D11` when both creations succeed:
success code, one completed buffer appended at the end. -/
theorem constructBuffersD3D11_success (env : Env) (eye : Int) (st : PluginState)
    (p : Nat) (ri : RenderInfo) (t v : Nat)
    (hr : st.render = some p) (hp : p ∈ st.allocated) (h0 : ¬ eye < 0)
    (hri : env.getRenderInfo.get? eye.toNat = some ri) (hlib : ri.library.isSome)
    (htex : env.createTexture2DResult = some t)
    (hrtv : env.createRenderTargetViewResult = some v) :
    ConstructBuffersD3D11 env eye st =
      some (.OSVR_RETURN_SUCCESS,
        [Action.createTexture2DCall (eyeTextureDesc ri) (some t),
          Action.createRenderTargetViewCall t eyeRTVDesc (some v)],
        { st with
          renderInfo := env.getRenderInfo,
          textureDesc := eyeTextureDesc ri,
          renderBuffers := st.renderBuffers ++
            [{ D3D11 := some { colorBuffer := t, colorBufferView := v }, OpenGL := none }] }) := by
  obtain ⟨lib, hlib⟩ := Option.isSome_iff_exists.mp hlib
  simp only [List.get?_eq_getElem?] at hri
  simp [ConstructBuffersD3D11, derefManager, hr, hp, h0, hri, hlib, htex, hrtv,
    eyeTextureDesc, eyeRTVDesc]

/-- Characterization of `ConstructBuffersOpenGL` for eye 0: the shared
framebuffer is generated (once) before the color and depth buffers. -/
theorem constructBuffersOpenGL_eye0 (env : Env) (st : PluginState)
    (p : Nat) (ri : RenderInfo)
    (hr : st.render = some p) (hp : p ∈ st.allocated)
    (hri : env.getRenderInfo.get? 0 = some ri) :
    ConstructBuffersOpenGL env 0 st =
      some ([Action.glewInitCall env.glewOk, Action.clientUpdateCall,
          Action.genFramebuffersCall, Action.bindFramebufferCall st.nextId,
          Action.genRenderbuffersCall (st.nextId + 1), Action.bindTextureCall (st.nextId + 1),
          Action.texImage2DCall ri.viewport.width ri.viewport.height,
          Action.texParameterCalls,
          Action.genRenderbuffersCall (st.nextId + 3),
          Action.bindRenderbufferCall (st.nextId + 3),
          Action.renderbufferStorageCall ri.viewport.width ri.viewport.height],
        { st with
          renderInfo := env.getRenderInfo,
          frameBuffer := some st.nextId,
          allocated := (st.nextId + 2) :: st.allocated,
          renderBuffers := st.renderBuffers ++
            [{ D3D11 := none,
               OpenGL := some { objId := st.nextId + 2, colorBufferName := st.nextId + 1 } }],
          nextId := st.nextId + 4 }) := by
  simp only [List.get?_eq_getElem?] at hri
  simp [ConstructBuffersOpenGL, derefManager, hr, hp, hri]

/-- Characterization of `ConstructBuffersOpenGL` for a nonzero eye: no
framebuffer is generated and the stored framebuffer name is untouched. -/
theorem constructBuffersOpenGL_eyeNonzero (env : Env) (eye : Int) (st : PluginState)
    (p : Nat) (ri : RenderInfo)
    (hne : ¬ eye = 0) (h0 : ¬ eye < 0)
    (hr : st.render = some p) (hp : p ∈ st.allocated)
    (hri : env.getRenderInfo.get? eye.toNat = some ri) :
    ConstructBuffersOpenGL env eye st =
      some ([Action.glewInitCall env.glewOk, Action.clientUpdateCall,
          Action.genRenderbuffersCall st.nextId, Action.bindTextureCall st.nextId,
          Action.texImage2DCall ri.viewport.width ri.viewport.height,
          Action.texParameterCalls,
          Action.genRenderbuffersCall (st.nextId + 2),
          Action.bindRenderbufferCall (st.nextId + 2),
          Action.renderbufferStorageCall ri.viewport.width ri.viewport.height],
        { st with
          renderInfo := env.getRenderInfo,
          allocated := (st.nextId + 1) :: st.allocated,
          renderBuffers := st.renderBuffers ++
            [{ D3D11 := none,
               OpenGL := some { objId := st.nextId + 1, colorBufferName := st.nextId } }],
          nextId := st.nextId + 3 }) := by
  simp only [List.get?_eq_getElem?] at hri
  simp [ConstructBuffersOpenGL, derefManager, hr, hp, hne, h0, hri]

/-- A successful `ConstructBuffersOpenGL` call for a nonzero eye leaves the
shared framebuffer exactly as it was. -/
theorem constructBuffersOpenGL_ne0_preserves_frameBuffer (env : Env) (eye : Int)
    (st : PluginState) (r : List Action × PluginState)
    (hne : ¬ eye = 0) (h : ConstructBuffersOpenGL env eye st = some r) :
    r.2.frameBuffer = st.frameBuffer := by
  simp only [ConstructBuffersOpenGL, hne, if_false, if_neg] at h
  split at h
  · exact Option.noConfusion h
  · split at h
    · exact Option.noConfusion h
    · rw [Option.some.injEq] at h
      subst h
      rfl

/-- Claim C1 (code bug): `OnRenderEvent(1)` runs `Shutdown`, which executes
`delete render` but leaves the pointer non-null (no null sentinel), so a
subsequent `OnRenderEvent(0)` is not a no-op: it dereferences the deleted
render manager in `render->GetRenderInfo()` (a use-after-free fault, `none`),
instead of the null session and no-op the claim states. -/
theorem onRenderEvent_shutdown_leaves_dangling_session :
    ((OnRenderEvent envBase 1 stLive).map fun r => r.2.render) = some (some 1) ∧
    ((OnRenderEvent envBase 1 stLive).bind fun r => OnRenderEvent envBase 0 r.2) = none := by
  decide

/-- Claim C2 (code bug): the first `Shutdown` on a live D3D11 session leaves
the backend kind at D3D11 (not None) and leaves the deleted manager pointer
non-null, so a second `Shutdown` re-enters the D3D11 branch and `delete`s the
already-deleted manager -- a double free (`none`), not a no-op. -/
theorem shutdown_twice_double_free :
    ((Shutdown stLive).map fun r => (r.2.s_DeviceType, r.2.render)) =
      some (.kUnityGfxRendererD3D11, some 1) ∧
    ((Shutdown stLive).bind fun r => Shutdown r.2) = none := by
  decide

/-- Claim C6 counterexample: calling `ConstructBuffersD3D11` for eye 1 with an
empty buffer sequence succeeds and `push_back`s the new buffer at position 0,
so no buffer sits at the position matching the eye index (position 1 is
empty), refuting the claim as stated. -/
theorem constructBuffersD3D11_appends_at_end_not_eye_index :
    ((ConstructBuffersD3D11 envBase 1 stNoBufs).map fun r =>
      (r.1, r.2.2.renderBuffers.length, r.2.2.renderBuffers.get? 1)) =
    some (.OSVR_RETURN_SUCCESS, 1, none) := by
  decide

/-- Claim C7 counterexample: a device event that arrives while the stored
backend kind matches no compiled-in backend (the null renderer) can still
invoke a backend handler: an Init event stores the freshly queried D3D11 kind
before dispatch, so the D3D11 handler runs, refuting the claim's second
conjunct as stated. -/
theorem onGraphicsDeviceEvent_init_dispatches_fresh_kind_counterexample :
    stNullKind.s_DeviceType = .kUnityGfxRendererNull ∧
    ((OnGraphicsDeviceEvent envBase .kUnityGfxDeviceEventInit stNullKind).map fun r => r.1) =
      some [Action.invokeD3DHandler .kUnityGfxDeviceEventInit] := by
  decide

/-- Outcome "CreationFailed": a failure return with no display-open attempted
(creation of the manager already failed). -/
def CreationFailedOutcome (code : OSVR_ReturnCode) (acts : List Action) : Prop :=
  code = .OSVR_RETURN_FAILURE ∧ ∀ b, Action.openDisplayCall b ∉ acts

/-- Outcome "DisplayOpenFailed": a failure return after a failing display
open. -/
def DisplayOpenFailedOutcome (code : OSVR_ReturnCode) (acts : List Action) : Prop :=
  code = .OSVR_RETURN_FAILURE ∧ Action.openDisplayCall false ∈ acts

/-- Outcome "Success": a success return after an initial render-info fetch
that replaced the stored render-info list. -/
def CreateSuccessOutcome (env : Env) (code : OSVR_ReturnCode) (acts : List Action)
    (st' : PluginState) : Prop :=
  code = .OSVR_RETURN_SUCCESS ∧ Action.getRenderInfoCall ∈ acts ∧
    st'.renderInfo = env.getRenderInfo

/-- Claim C3: `CreateRenderManagerFromUnity` fails exactly when the
constructed manager is null or not-okay (no display open attempted), fails
exactly when the display open reports failure (after a display-open attempt),
succeeds with an initial render-info fetch exactly when both steps work, and
for every input exactly one of the three outcomes occurs. -/
theorem createRenderManagerFromUnity_trichotomy (env : Env) (context : Nat)
    (st : PluginState) (code : OSVR_ReturnCode) (acts : List Action) (st' : PluginState)
    (h : CreateRenderManagerFromUnity env context st = (code, acts, st')) :
    (CreationFailedOutcome code acts ↔
      (env.createRenderManagerResult = none ∨ env.doingOkay = false)) ∧
    (DisplayOpenFailedOutcome code acts ↔
      (env.createRenderManagerResult ≠ none ∧ env.doingOkay = true ∧
        env.openDisplayOk = false)) ∧
    (CreateSuccessOutcome env code acts st' ↔
      (env.createRenderManagerResult ≠ none ∧ env.doingOkay = true ∧
        env.openDisplayOk = true)) ∧
    ((CreationFailedOutcome code acts ∧ ¬ DisplayOpenFailedOutcome code acts ∧
        ¬ CreateSuccessOutcome env code acts st') ∨
      (¬ CreationFailedOutcome code acts ∧ DisplayOpenFailedOutcome code acts ∧
        ¬ CreateSuccessOutcome env code acts st') ∨
      (¬ CreationFailedOutcome code acts ∧ ¬ DisplayOpenFailedOutcome code acts ∧
        CreateSuccessOutcome env code acts st')) := by
  rcases henv : env.createRenderManagerResult with _ | p <;>
    rcases hok : env.doingOkay <;>
      rcases hod : env.openDisplayOk <;>
        simp [CreateRenderManagerFromUnity, henv, hok, hod, Prod.mk.injEq] at h <;>
        obtain ⟨hc, ha, hs⟩ := h <;>
        subst hc <;> subst ha <;> subst hs <;>
        simp [CreationFailedOutcome, DisplayOpenFailedOutcome, CreateSuccessOutcome,
          henv, hok, hod]

/-- Witness for C3: in the all-succeeding environment the Success outcome
holds at a concrete input. -/
theorem createRenderManagerFromUnity_trichotomy_witness :
    CreateSuccessOutcome envBase
      (CreateRenderManagerFromUnity envBase 5 stNoBufs).1
      (CreateRenderManagerFromUnity envBase 5 stNoBufs).2.1
      (CreateRenderManagerFromUnity envBase 5 stNoBufs).2.2 :=
  ((createRenderManagerFromUnity_trichotomy envBase 5 stNoBufs _ _ _ rfl).2.2.1).mpr
    (by decide)

/-- A registered OpenGL render buffer with the given wrapper id and GL
name. -/
def bufGL (o nm : Nat) : RenderBuffer :=
  { D3D11 := none, OpenGL := some { objId := o, colorBufferName := nm } }

/-- A healthy running OpenGL session with two registered buffers and a
generated shared framebuffer. -/
def stLiveGL : PluginState :=
  { stLive with
    s_DeviceType := .kUnityGfxRendererOpenGL,
    renderBuffers := [bufGL 30 31, bufGL 32 33],
    frameBuffer := some 5 }

/-- Claim C4: on a render tick with the D3D11 backend active and both eye
buffers registered, the presenter performs exactly one resource copy per eye,
in eye-index order (eye 0 from the left host texture, eye 1 from the right),
into that eye's buffer, followed by exactly one present of the full buffer
sequence with the vertical flip flag true; on the OpenGL (legacy) path the
single present call carries the default flip flag false. -/
theorem onRenderEvent_copies_then_presents_flip :
    (∀ (env : Env) (st : PluginState) (p : Nat) (ri0 ri1 : RenderInfo)
        (b0 b1 : RenderBuffer) (rb0 rb1 : RenderBufferD3D11)
        (lib0 lib1 : GraphicsLibraryD3D11),
      st.s_DeviceType = .kUnityGfxRendererD3D11 →
      st.render = some p → p ∈ st.allocated →
      env.getRenderInfo = [ri0, ri1] →
      ri0.library = some lib0 → ri1.library = some lib1 →
      st.renderBuffers = [b0, b1] →
      b0.D3D11 = some rb0 → b1.D3D11 = some rb1 →
      OnRenderEvent env 0 st =
        some ([Action.omSetRenderTargets rb0.colorBufferView,
            Action.copyResource rb0.colorBuffer st.leftEyeTexturePtr,
            Action.omSetRenderTargets rb1.colorBufferView,
            Action.copyResource rb1.colorBuffer st.rightEyeTexturePtr,
            Action.presentBuffers [b0, b1] true],
          { st with renderInfo := [ri0, ri1] })) ∧
    (∀ (env : Env) (st : PluginState) (p : Nat) (ri0 ri1 : RenderInfo)
        (b0 b1 : RenderBuffer) (g0 g1 : RenderBufferOpenGL),
      st.s_DeviceType = .kUnityGfxRendererOpenGL →
      st.render = some p → p ∈ st.allocated →
      env.getRenderInfo = [ri0, ri1] →
      st.renderBuffers = [b0, b1] →
      b0.OpenGL = some g0 → b1.OpenGL = some g1 →
      env.framebufferComplete = true →
      OnRenderEvent env 0 st =
        some ([Action.bindFramebufferCall (st.frameBuffer.getD 0),
            Action.framebufferTextureCall g0.colorBufferName, Action.drawBuffersCall,
            Action.viewportCall, Action.projectionMatrixCall,
            Action.modelViewMatrixCall, Action.clearCall,
            Action.bindTextureCall g0.colorBufferName,
            Action.bindFramebufferCall (st.frameBuffer.getD 0),
            Action.framebufferTextureCall g1.colorBufferName, Action.drawBuffersCall,
            Action.viewportCall, Action.projectionMatrixCall,
            Action.modelViewMatrixCall, Action.clearCall,
            Action.bindTextureCall g1.colorBufferName,
            Action.presentBuffers [b0, b1] false],
          { st with renderInfo := [ri0, ri1] })) := by
  constructor
  · intro env st p ri0 ri1 b0 b1 rb0 rb1 lib0 lib1 hdev hr hp hri hl0 hl1 hB hb0 hb1
    simp [OnRenderEvent, rendererVal, derefManager, hdev, hr, hp, hri,
      renderEachD3D11, RenderViewD3D11, hB, hb0, hb1, hl0, hl1]
  · intro env st p ri0 ri1 b0 b1 g0 g1 hdev hr hp hri hB hg0 hg1 hfb
    simp [OnRenderEvent, rendererVal, derefManager, hdev, hr, hp, hri,
      renderEachOpenGL, RenderViewOpenGL, hB, hg0, hg1, hfb]

/-- Witness for C4: the two render-tick traces at concrete D3D11 and OpenGL
sessions. -/
theorem onRenderEvent_copies_then_presents_flip_witness :
    OnRenderEvent envBase 0 stLive =
      some ([Action.omSetRenderTargets 11, Action.copyResource 10 100,
          Action.omSetRenderTargets 13, Action.copyResource 12 101,
          Action.presentBuffers [bufD3D 10 11, bufD3D 12 13] true],
        { stLive with renderInfo := [riD3D, riD3D] }) ∧
    OnRenderEvent envBase 0 stLiveGL =
      some ([Action.bindFramebufferCall 5, Action.framebufferTextureCall 31,
          Action.drawBuffersCall, Action.viewportCall, Action.projectionMatrixCall,
          Action.modelViewMatrixCall, Action.clearCall, Action.bindTextureCall 31,
          Action.bindFramebufferCall 5, Action.framebufferTextureCall 33,
          Action.drawBuffersCall, Action.viewportCall, Action.projectionMatrixCall,
          Action.modelViewMatrixCall, Action.clearCall, Action.bindTextureCall 33,
          Action.presentBuffers [bufGL 30 31, bufGL 32 33] false],
        { stLiveGL with renderInfo := [riD3D, riD3D] }) :=
  ⟨onRenderEvent_copies_then_presents_flip.1 envBase stLive 1 riD3D riD3D
      (bufD3D 10 11) (bufD3D 12 13) { colorBuffer := 10, colorBufferView := 11 }
      { colorBuffer := 12, colorBufferView := 13 }
      { device := 7, context := 8 } { device := 7, context := 8 }
      (by rfl) (by rfl) (by decide) (by rfl) (by rfl) (by rfl) (by rfl) (by rfl) (by rfl),
    onRenderEvent_copies_then_presents_flip.2 envBase stLiveGL 1 riD3D riD3D
      (bufGL 30 31) (bufGL 32 33) { objId := 30, colorBufferName := 31 }
      { objId := 32, colorBufferName := 33 }
      (by rfl) (by rfl) (by decide) (by rfl) (by rfl) (by rfl) (by rfl) (by rfl)⟩

/-- With the D3D11 backend active, `SetColorBufferFromUnity` forwards whatever
the (possibly failing) buffer construction produced and returns success. -/
theorem setColorBufferFromUnity_d3d11 (env : Env) (texturePtr : Nat) (eye : Int)
    (st : PluginState) (hdev : st.s_DeviceType = .kUnityGfxRendererD3D11)
    (r : OSVR_ReturnCode × List Action × PluginState)
    (h : ConstructBuffersD3D11 env eye (setEyeTexturePtr texturePtr eye st) = some r) :
    SetColorBufferFromUnity env texturePtr eye st =
      some (.OSVR_RETURN_SUCCESS, r.2.1, r.2.2) := by
  simp [SetColorBufferFromUnity, rendererVal_ne_neg_one,
    setEyeTexturePtr_s_DeviceType, hdev, h]

/-- With the OpenGL backend active, `SetColorBufferFromUnity` forwards the
buffer construction's effects and returns success. -/
theorem setColorBufferFromUnity_opengl (env : Env) (texturePtr : Nat) (eye : Int)
    (st : PluginState) (hdev : st.s_DeviceType = .kUnityGfxRendererOpenGL)
    (r : List Action × PluginState)
    (h : ConstructBuffersOpenGL env eye (setEyeTexturePtr texturePtr eye st) = some r) :
    SetColorBufferFromUnity env texturePtr eye st =
      some (.OSVR_RETURN_SUCCESS, r.1, r.2) := by
  simp [SetColorBufferFromUnity, rendererVal_ne_neg_one,
    setEyeTexturePtr_s_DeviceType, hdev, h]

/-- With no supported backend active, `SetColorBufferFromUnity` still stores
the pointer but returns failure without constructing anything. -/
theorem setColorBufferFromUnity_unsupported (env : Env) (texturePtr : Nat) (eye : Int)
    (st : PluginState)
    (h1 : ¬ st.s_DeviceType = .kUnityGfxRendererD3D11)
    (h2 : ¬ st.s_DeviceType = .kUnityGfxRendererOpenGL) :
    SetColorBufferFromUnity env texturePtr eye st =
      some (.OSVR_RETURN_FAILURE, [], setEyeTexturePtr texturePtr eye st) := by
  cases hd : st.s_DeviceType
  case kUnityGfxRendererD3D11 => exact absurd hd h1
  case kUnityGfxRendererOpenGL => exact absurd hd h2
  all_goals
    simp [SetColorBufferFromUnity, rendererVal_ne_neg_one,
      setEyeTexturePtr_s_DeviceType, hd]

/-- Under a live session and a valid eye index, the D3D11 buffer construction
always returns (no fault) and never touches the cached host texture
pointers. -/
theorem constructBuffersD3D11_total (env : Env) (eye : Int) (st : PluginState)
    (p : Nat) (ri : RenderInfo)
    (hr : st.render = some p) (hp : p ∈ st.allocated) (h0 : ¬ eye < 0)
    (hri : env.getRenderInfo.get? eye.toNat = some ri) (hlib : ri.library.isSome) :
    ∃ r, ConstructBuffersD3D11 env eye st = some r ∧
      r.2.2.leftEyeTexturePtr = st.leftEyeTexturePtr ∧
      r.2.2.rightEyeTexturePtr = st.rightEyeTexturePtr := by
  rcases htex : env.createTexture2DResult with _ | t
  · exact ⟨_, constructBuffersD3D11_texFail env eye st p ri hr hp h0 hri hlib htex, rfl, rfl⟩
  · rcases hrtv : env.createRenderTargetViewResult with _ | v
    · exact ⟨_, constructBuffersD3D11_viewFail env eye st p ri t hr hp h0 hri hlib htex hrtv,
        rfl, rfl⟩
    · exact ⟨_, constructBuffersD3D11_success env eye st p ri t v hr hp h0 hri hlib htex hrtv,
        rfl, rfl⟩

/-- Under a live session and a valid eye index, the OpenGL buffer construction
always returns and never touches the cached host texture pointers. -/
theorem constructBuffersOpenGL_total (env : Env) (eye : Int) (st : PluginState)
    (p : Nat) (ri : RenderInfo)
    (hr : st.render = some p) (hp : p ∈ st.allocated) (h0 : ¬ eye < 0)
    (hri : env.getRenderInfo.get? eye.toNat = some ri) :
    ∃ r, ConstructBuffersOpenGL env eye st = some r ∧
      r.2.leftEyeTexturePtr = st.leftEyeTexturePtr ∧
      r.2.rightEyeTexturePtr = st.rightEyeTexturePtr := by
  by_cases he : eye = 0
  · subst he
    exact ⟨_, constructBuffersOpenGL_eye0 env st p ri hr hp hri, rfl, rfl⟩
  · exact ⟨_, constructBuffersOpenGL_eyeNonzero env eye st p ri he h0 hr hp hri, rfl, rfl⟩

/-- Claim C5: for every texture pointer and eye index, the entry point stores
the pointer for that eye (eye 0 the left slot, any other eye the right slot),
triggers the active backend's buffer construction for that eye, and returns
failure exactly when no supported backend is active (in which case the
pointer is still stored and nothing is constructed). -/
theorem setColorBufferFromUnity_contract :
    (∀ (env : Env) (texturePtr : Nat) (eye : Int) (st : PluginState) (p : Nat)
        (ri : RenderInfo),
      st.s_DeviceType = .kUnityGfxRendererD3D11 →
      st.render = some p → p ∈ st.allocated → ¬ eye < 0 →
      env.getRenderInfo.get? eye.toNat = some ri → ri.library.isSome →
      ∃ c acts st',
        ConstructBuffersD3D11 env eye (setEyeTexturePtr texturePtr eye st) =
          some (c, acts, st') ∧
        SetColorBufferFromUnity env texturePtr eye st =
          some (.OSVR_RETURN_SUCCESS, acts, st') ∧
        (eye = 0 → st'.leftEyeTexturePtr = texturePtr) ∧
        (¬ eye = 0 → st'.rightEyeTexturePtr = texturePtr)) ∧
    (∀ (env : Env) (texturePtr : Nat) (eye : Int) (st : PluginState) (p : Nat)
        (ri : RenderInfo),
      st.s_DeviceType = .kUnityGfxRendererOpenGL →
      st.render = some p → p ∈ st.allocated → ¬ eye < 0 →
      env.getRenderInfo.get? eye.toNat = some ri →
      ∃ acts st',
        ConstructBuffersOpenGL env eye (setEyeTexturePtr texturePtr eye st) =
          some (acts, st') ∧
        SetColorBufferFromUnity env texturePtr eye st =
          some (.OSVR_RETURN_SUCCESS, acts, st') ∧
        (eye = 0 → st'.leftEyeTexturePtr = texturePtr) ∧
        (¬ eye = 0 → st'.rightEyeTexturePtr = texturePtr)) ∧
    (∀ (env : Env) (texturePtr : Nat) (eye : Int) (st : PluginState),
      ¬ st.s_DeviceType = .kUnityGfxRendererD3D11 →
      ¬ st.s_DeviceType = .kUnityGfxRendererOpenGL →
      SetColorBufferFromUnity env texturePtr eye st =
        some (.OSVR_RETURN_FAILURE, [], setEyeTexturePtr texturePtr eye st)) := by
  refine ⟨?_, ?_, ?_⟩
  · intro env texturePtr eye st p ri hdev hr hp h0 hri hlib
    obtain ⟨r, hcon, hL, hR⟩ :=
      constructBuffersD3D11_total env eye (setEyeTexturePtr texturePtr eye st) p ri
        ((setEyeTexturePtr_render texturePtr eye st).trans hr)
        (by rw [setEyeTexturePtr_allocated]; exact hp) h0 hri hlib
    exact ⟨r.1, r.2.1, r.2.2, hcon,
      setColorBufferFromUnity_d3d11 env texturePtr eye st hdev r hcon,
      fun he => hL.trans (setEyeTexturePtr_left texturePtr eye st he),
      fun he => hR.trans (setEyeTexturePtr_right texturePtr eye st he)⟩
  · intro env texturePtr eye st p ri hdev hr hp h0 hri
    obtain ⟨r, hcon, hL, hR⟩ :=
      constructBuffersOpenGL_total env eye (setEyeTexturePtr texturePtr eye st) p ri
        ((setEyeTexturePtr_render texturePtr eye st).trans hr)
        (by rw [setEyeTexturePtr_allocated]; exact hp) h0 hri
    exact ⟨r.1, r.2, hcon,
      setColorBufferFromUnity_opengl env texturePtr eye st hdev r hcon,
      fun he => hL.trans (setEyeTexturePtr_left texturePtr eye st he),
      fun he => hR.trans (setEyeTexturePtr_right texturePtr eye st he)⟩
  · intro env texturePtr eye st h1 h2
    exact setColorBufferFromUnity_unsupported env texturePtr eye st h1 h2

/-- Witness for C5: the three cases at concrete inputs. -/
theorem setColorBufferFromUnity_contract_witness :
    (∃ c acts st',
      ConstructBuffersD3D11 envBase 0 (setEyeTexturePtr 200 0 stLive) =
        some (c, acts, st') ∧
      SetColorBufferFromUnity envBase 200 0 stLive =
        some (.OSVR_RETURN_SUCCESS, acts, st') ∧
      ((0 : Int) = 0 → st'.leftEyeTexturePtr = 200) ∧
      (¬ (0 : Int) = 0 → st'.rightEyeTexturePtr = 200)) ∧
    (∃ acts st',
      ConstructBuffersOpenGL envBase 1 (setEyeTexturePtr 200 1 stLiveGL) =
        some (acts, st') ∧
      SetColorBufferFromUnity envBase 200 1 stLiveGL =
        some (.OSVR_RETURN_SUCCESS, acts, st') ∧
      ((1 : Int) = 0 → st'.leftEyeTexturePtr = 200) ∧
      (¬ (1 : Int) = 0 → st'.rightEyeTexturePtr = 200)) ∧
    SetColorBufferFromUnity envBase 200 1 stNullKind =
      some (.OSVR_RETURN_FAILURE, [], setEyeTexturePtr 200 1 stNullKind) :=
  ⟨setColorBufferFromUnity_contract.1 envBase 200 0 stLive 1 riD3D
      (by rfl) (by rfl) (by decide) (by decide) (by rfl) (by decide),
    setColorBufferFromUnity_contract.2.1 envBase 200 1 stLiveGL 1 riD3D
      (by rfl) (by rfl) (by decide) (by decide) (by rfl),
    setColorBufferFromUnity_contract.2.2 envBase 200 1 stNullKind
      (by decide) (by decide)⟩

/-- The environment in which the native texture creation fails. -/
def envTexFail : Env := { envBase with createTexture2DResult := none }

/-- Claim C9: with the D3D11 backend active the entry point returns success
even when the triggered buffer construction fails (the failure code is
discarded), and a failure return from the entry point implies no supported
backend was active. -/
theorem setColorBufferFromUnity_discards_construction_failure :
    (∀ (env : Env) (texturePtr : Nat) (eye : Int) (st : PluginState) (p : Nat)
        (ri : RenderInfo),
      st.s_DeviceType = .kUnityGfxRendererD3D11 →
      st.render = some p → p ∈ st.allocated → ¬ eye < 0 →
      env.getRenderInfo.get? eye.toNat = some ri → ri.library.isSome →
      (env.createTexture2DResult = none ∨
        (∃ t, env.createTexture2DResult = some t ∧
          env.createRenderTargetViewResult = none)) →
      ∃ acts st',
        ConstructBuffersD3D11 env eye (setEyeTexturePtr texturePtr eye st) =
          some (.OSVR_RETURN_FAILURE, acts, st') ∧
        SetColorBufferFromUnity env texturePtr eye st =
          some (.OSVR_RETURN_SUCCESS, acts, st')) ∧
    (∀ (env : Env) (texturePtr : Nat) (eye : Int) (st : PluginState)
        (r : OSVR_ReturnCode × List Action × PluginState),
      SetColorBufferFromUnity env texturePtr eye st = some r →
      r.1 = .OSVR_RETURN_FAILURE →
      ¬ st.s_DeviceType = .kUnityGfxRendererD3D11 ∧
      ¬ st.s_DeviceType = .kUnityGfxRendererOpenGL) := by
  constructor
  · intro env texturePtr eye st p ri hdev hr hp h0 hri hlib hfail
    have hr1 : (setEyeTexturePtr texturePtr eye st).render = some p :=
      (setEyeTexturePtr_render texturePtr eye st).trans hr
    have hp1 : p ∈ (setEyeTexturePtr texturePtr eye st).allocated := by
      rw [setEyeTexturePtr_allocated]; exact hp
    rcases hfail with htex | ⟨t, htex, hrtv⟩
    · have hcon := constructBuffersD3D11_texFail env eye
        (setEyeTexturePtr texturePtr eye st) p ri hr1 hp1 h0 hri hlib htex
      exact ⟨_, _, hcon, setColorBufferFromUnity_d3d11 env texturePtr eye st hdev _ hcon⟩
    · have hcon := constructBuffersD3D11_viewFail env eye
        (setEyeTexturePtr texturePtr eye st) p ri t hr1 hp1 h0 hri hlib htex hrtv
      exact ⟨_, _, hcon, setColorBufferFromUnity_d3d11 env texturePtr eye st hdev _ hcon⟩
  · intro env texturePtr eye st r h hfail
    by_cases hd : st.s_DeviceType = .kUnityGfxRendererD3D11
    · exfalso
      simp only [SetColorBufferFromUnity, rendererVal_ne_neg_one,
        setEyeTexturePtr_s_DeviceType, hd, if_neg, if_false] at h
      split at h
      · exact Option.noConfusion h
      · rw [Option.some.injEq] at h
        rw [← h] at hfail
        exact OSVR_ReturnCode.noConfusion hfail
    · by_cases hgl : st.s_DeviceType = .kUnityGfxRendererOpenGL
      · exfalso
        simp only [SetColorBufferFromUnity, rendererVal_ne_neg_one,
          setEyeTexturePtr_s_DeviceType, hgl, if_neg, if_false] at h
        split at h
        · exact Option.noConfusion h
        · rw [Option.some.injEq] at h
          rw [← h] at hfail
          exact OSVR_ReturnCode.noConfusion hfail
      · exact ⟨hd, hgl⟩

/-- Witness for C9: at a concrete D3D11 session with a failing texture
creation the entry point succeeds anyway, and a concrete failure return
occurs only at the unsupported-backend state. -/
theorem setColorBufferFromUnity_discards_construction_failure_witness :
    (∃ acts st',
      ConstructBuffersD3D11 envTexFail 0 (setEyeTexturePtr 200 0 stLive) =
        some (.OSVR_RETURN_FAILURE, acts, st') ∧
      SetColorBufferFromUnity envTexFail 200 0 stLive =
        some (.OSVR_RETURN_SUCCESS, acts, st')) ∧
    (¬ stNullKind.s_DeviceType = .kUnityGfxRendererD3D11 ∧
      ¬ stNullKind.s_DeviceType = .kUnityGfxRendererOpenGL) :=
  ⟨setColorBufferFromUnity_discards_construction_failure.1 envTexFail 200 0 stLive 1 riD3D
      (by rfl) (by rfl) (by decide) (by decide) (by rfl) (by decide) (Or.inl (by rfl)),
    setColorBufferFromUnity_discards_construction_failure.2 envTexFail 200 1 stNullKind
      (.OSVR_RETURN_FAILURE, [], setEyeTexturePtr 200 1 stNullKind) (by decide) (by rfl)⟩

/-- The environment in which the render-target-view creation fails. -/
def envViewFail : Env := { envBase with createRenderTargetViewResult := none }

/-- Claim C6 (amended): the descriptor uses the fixed R8G8B8A8_UNORM format
sized to the eye's viewport with a matching-format view; either native
creation failure returns a failure code with no buffer appended; on success
exactly one complete buffer is appended at the end of the sequence -- the
position equal to the number of previously registered buffers, which matches
the eye index precisely when the eyes are registered in order starting from an
empty sequence. -/
theorem constructBuffersD3D11_failure_atomic_success_appends_end :
    (∀ ri : RenderInfo,
      (eyeTextureDesc ri).Format = .DXGI_FORMAT_R8G8B8A8_UNORM ∧
      (eyeTextureDesc ri).Width = ri.viewport.width ∧
      (eyeTextureDesc ri).Height = ri.viewport.height ∧
      eyeRTVDesc.Format = (eyeTextureDesc ri).Format) ∧
    (∀ (env : Env) (eye : Int) (st : PluginState) (p : Nat) (ri : RenderInfo),
      st.render = some p → p ∈ st.allocated → ¬ eye < 0 →
      env.getRenderInfo.get? eye.toNat = some ri → ri.library.isSome →
      env.createTexture2DResult = none →
      ∃ st', ConstructBuffersD3D11 env eye st =
          some (.OSVR_RETURN_FAILURE,
            [Action.createTexture2DCall (eyeTextureDesc ri) none], st') ∧
        st'.renderBuffers = st.renderBuffers) ∧
    (∀ (env : Env) (eye : Int) (st : PluginState) (p : Nat) (ri : RenderInfo) (t : Nat),
      st.render = some p → p ∈ st.allocated → ¬ eye < 0 →
      env.getRenderInfo.get? eye.toNat = some ri → ri.library.isSome →
      env.createTexture2DResult = some t →
      env.createRenderTargetViewResult = none →
      ∃ st', ConstructBuffersD3D11 env eye st =
          some (.OSVR_RETURN_FAILURE,
            [Action.createTexture2DCall (eyeTextureDesc ri) (some t),
              Action.createRenderTargetViewCall t eyeRTVDesc none], st') ∧
        st'.renderBuffers = st.renderBuffers) ∧
    (∀ (env : Env) (eye : Int) (st : PluginState) (p : Nat) (ri : RenderInfo) (t v : Nat),
      st.render = some p → p ∈ st.allocated → ¬ eye < 0 →
      env.getRenderInfo.get? eye.toNat = some ri → ri.library.isSome →
      env.createTexture2DResult = some t →
      env.createRenderTargetViewResult = some v →
      ∃ st', ConstructBuffersD3D11 env eye st =
          some (.OSVR_RETURN_SUCCESS,
            [Action.createTexture2DCall (eyeTextureDesc ri) (some t),
              Action.createRenderTargetViewCall t eyeRTVDesc (some v)], st') ∧
        st'.renderBuffers = st.renderBuffers ++ [bufD3D t v] ∧
        st'.renderBuffers.get? st.renderBuffers.length = some (bufD3D t v) ∧
        (st.renderBuffers.length = eye.toNat →
          st'.renderBuffers.get? eye.toNat = some (bufD3D t v))) := by
  refine ⟨fun ri => ⟨rfl, rfl, rfl, rfl⟩, ?_, ?_, ?_⟩
  · intro env eye st p ri hr hp h0 hri hlib htex
    exact ⟨_, constructBuffersD3D11_texFail env eye st p ri hr hp h0 hri hlib htex, rfl⟩
  · intro env eye st p ri t hr hp h0 hri hlib htex hrtv
    exact ⟨_, constructBuffersD3D11_viewFail env eye st p ri t hr hp h0 hri hlib htex hrtv,
      rfl⟩
  · intro env eye st p ri t v hr hp h0 hri hlib htex hrtv
    have hgl : (st.renderBuffers ++ [bufD3D t v]).get? st.renderBuffers.length =
        some (bufD3D t v) := by
      rw [List.get?_eq_getElem?]; exact List.getElem?_concat_length _ _
    exact ⟨_, constructBuffersD3D11_success env eye st p ri t v hr hp h0 hri hlib htex hrtv,
      rfl, hgl, fun hlen => hlen ▸ hgl⟩

/-- Witness for C6: the format facts and the three outcomes at concrete
inputs (the success case at eye 0 on an empty sequence, where the end
position does match the eye index). -/
theorem constructBuffersD3D11_failure_atomic_success_appends_end_witness :
    ((eyeTextureDesc riD3D).Format = .DXGI_FORMAT_R8G8B8A8_UNORM ∧
      (eyeTextureDesc riD3D).Width = riD3D.viewport.width ∧
      (eyeTextureDesc riD3D).Height = riD3D.viewport.height ∧
      eyeRTVDesc.Format = (eyeTextureDesc riD3D).Format) ∧
    (∃ st', ConstructBuffersD3D11 envTexFail 0 stNoBufs =
        some (.OSVR_RETURN_FAILURE,
          [Action.createTexture2DCall (eyeTextureDesc riD3D) none], st') ∧
      st'.renderBuffers = stNoBufs.renderBuffers) ∧
    (∃ st', ConstructBuffersD3D11 envViewFail 0 stNoBufs =
        some (.OSVR_RETURN_FAILURE,
          [Action.createTexture2DCall (eyeTextureDesc riD3D) (some 10),
            Action.createRenderTargetViewCall 10 eyeRTVDesc none], st') ∧
      st'.renderBuffers = stNoBufs.renderBuffers) ∧
    (∃ st', ConstructBuffersD3D11 envBase 0 stNoBufs =
        some (.OSVR_RETURN_SUCCESS,
          [Action.createTexture2DCall (eyeTextureDesc riD3D) (some 10),
            Action.createRenderTargetViewCall 10 eyeRTVDesc (some 11)], st') ∧
      st'.renderBuffers = stNoBufs.renderBuffers ++ [bufD3D 10 11] ∧
      st'.renderBuffers.get? stNoBufs.renderBuffers.length = some (bufD3D 10 11) ∧
      (stNoBufs.renderBuffers.length = (0 : Int).toNat →
        st'.renderBuffers.get? (0 : Int).toNat = some (bufD3D 10 11))) :=
  ⟨constructBuffersD3D11_failure_atomic_success_appends_end.1 riD3D,
    constructBuffersD3D11_failure_atomic_success_appends_end.2.1 envTexFail 0 stNoBufs 1 riD3D
      (by rfl) (by decide) (by decide) (by rfl) (by decide) (by rfl),
    constructBuffersD3D11_failure_atomic_success_appends_end.2.2.1 envViewFail 0 stNoBufs 1
      riD3D 10 (by rfl) (by decide) (by decide) (by rfl) (by decide) (by rfl) (by rfl),
    constructBuffersD3D11_failure_atomic_success_appends_end.2.2.2 envBase 0 stNoBufs 1
      riD3D 10 11 (by rfl) (by decide) (by decide) (by rfl) (by decide) (by rfl) (by rfl)⟩

/-- The renderer kind the dispatcher actually forwards to the backend
handlers: the freshly queried kind for an Init event, the previously stored
kind for every other event. -/
def dispatchedKind (env : Env) (eventType : UnityGfxDeviceEventType)
    (st : PluginState) : UnityGfxRenderer :=
  match eventType with
  | .kUnityGfxDeviceEventInit => env.getRenderer
  | _ => st.s_DeviceType

/-- Claim C7 (amended): BeforeReset/AfterReset device events never change the
stored backend kind, and no backend handler is invoked when the dispatched
kind -- the freshly queried kind for Init events, the prior stored kind for
all others -- matches no compiled-in backend. -/
theorem onGraphicsDeviceEvent_resets_keep_kind_unknown_drops :
    (∀ (env : Env) (st : PluginState) (ev : UnityGfxDeviceEventType),
      (ev = .kUnityGfxDeviceEventBeforeReset ∨ ev = .kUnityGfxDeviceEventAfterReset) →
      ∃ acts st', OnGraphicsDeviceEvent env ev st = some (acts, st') ∧
        st'.s_DeviceType = st.s_DeviceType) ∧
    (∀ (env : Env) (st : PluginState) (ev : UnityGfxDeviceEventType),
      ¬ dispatchedKind env ev st = .kUnityGfxRendererOpenGL →
      ¬ dispatchedKind env ev st = .kUnityGfxRendererD3D11 →
      ∃ st', OnGraphicsDeviceEvent env ev st = some ([], st')) := by
  constructor
  · intro env st ev hev
    rcases hev with hev | hev <;> subst hev <;> cases hd : st.s_DeviceType <;>
      simp [OnGraphicsDeviceEvent, DoEventGraphicsDeviceD3D11,
        DoEventGraphicsDeviceOpenGL, hd] <;>
      exact ⟨_, st, ⟨rfl, rfl⟩, hd⟩
  · intro env st ev h1 h2
    cases ev <;> simp only [dispatchedKind] at h1 h2 <;>
      simp [OnGraphicsDeviceEvent, DoEventGraphicsDeviceD3D11,
        DoEventGraphicsDeviceOpenGL, h1, h2]

/-- Witness for C7: a BeforeReset event at a concrete D3D11 state keeps the
kind, and a Shutdown event at a concrete null-kind state invokes no
handler. -/
theorem onGraphicsDeviceEvent_resets_keep_kind_unknown_drops_witness :
    (∃ acts st',
      OnGraphicsDeviceEvent envBase .kUnityGfxDeviceEventBeforeReset stLive =
        some (acts, st') ∧
      st'.s_DeviceType = stLive.s_DeviceType) ∧
    (∃ st',
      OnGraphicsDeviceEvent envBase .kUnityGfxDeviceEventShutdown stNullKind =
        some ([], st')) :=
  ⟨onGraphicsDeviceEvent_resets_keep_kind_unknown_drops.1 envBase stLive
      .kUnityGfxDeviceEventBeforeReset (Or.inl rfl),
    onGraphicsDeviceEvent_resets_keep_kind_unknown_drops.2 envBase stNullKind
      .kUnityGfxDeviceEventShutdown (by decide) (by decide)⟩

/-- Recognizer for the framebuffer-generation call. -/
def Action.isGenFramebuffers : Action → Bool
  | .genFramebuffersCall => true
  | _ => false

/-- A sequence of legacy buffer-construction calls, one per listed eye. -/
def constructSeqGL (env : Env) (eyes : List Int) (st : PluginState) :
    Option PluginState :=
  match eyes with
  | [] => some st
  | e :: rest =>
    match ConstructBuffersOpenGL env e st with
    | none => none
    | some r => constructSeqGL env rest r.2

/-- Claim C8: the legacy construction call for eye 0 generates exactly one
framebuffer (recorded in the shared `frameBuffer` slot); a call for any other
eye generates none and leaves the slot untouched; hence after any sequence of
construction calls that never includes eye 0, the shared framebuffer slot is
exactly what it was initially. -/
theorem constructBuffersOpenGL_framebuffer_only_eye0 :
    (∀ (env : Env) (st : PluginState) (p : Nat) (ri : RenderInfo),
      st.render = some p → p ∈ st.allocated →
      env.getRenderInfo.get? 0 = some ri →
      ∃ acts st', ConstructBuffersOpenGL env 0 st = some (acts, st') ∧
        (acts.filter Action.isGenFramebuffers).length = 1 ∧
        st'.frameBuffer = some st.nextId) ∧
    (∀ (env : Env) (eye : Int) (st : PluginState) (p : Nat) (ri : RenderInfo),
      ¬ eye = 0 → ¬ eye < 0 →
      st.render = some p → p ∈ st.allocated →
      env.getRenderInfo.get? eye.toNat = some ri →
      ∃ acts st', ConstructBuffersOpenGL env eye st = some (acts, st') ∧
        (acts.filter Action.isGenFramebuffers).length = 0 ∧
        st'.frameBuffer = st.frameBuffer) ∧
    (∀ (env : Env) (eyes : List Int) (st st' : PluginState),
      (∀ e ∈ eyes, ¬ e = 0) →
      constructSeqGL env eyes st = some st' →
      st'.frameBuffer = st.frameBuffer) := by
  refine ⟨?_, ?_, ?_⟩
  · intro env st p ri hr hp hri
    refine ⟨_, _, constructBuffersOpenGL_eye0 env st p ri hr hp hri, ?_, rfl⟩
    simp [Action.isGenFramebuffers]
  · intro env eye st p ri hne h0 hr hp hri
    refine ⟨_, _, constructBuffersOpenGL_eyeNonzero env eye st p ri hne h0 hr hp hri, ?_, rfl⟩
    simp [Action.isGenFramebuffers]
  · intro env eyes
    induction eyes with
    | nil =>
      intro st st' _ hseq
      simp only [constructSeqGL, Option.some.injEq] at hseq
      rw [← hseq]
    | cons e rest ih =>
      intro st st' h hseq
      simp only [constructSeqGL] at hseq
      split at hseq
      · exact Option.noConfusion hseq
      · rename_i r hcall
        have h1 := constructBuffersOpenGL_ne0_preserves_frameBuffer env e st r
          (h e (List.mem_cons_self e rest)) hcall
        have h2 := ih r.2 st' (fun x hx => h x (List.mem_cons_of_mem e hx)) hseq
        rw [h2, h1]

/-- The state after one legacy construction call for eye 1 on `stLiveGL`. -/
def stAfterGL1 : PluginState :=
  { stLiveGL with
    renderInfo := [riD3D, riD3D],
    allocated := [21, 1],
    renderBuffers := [bufGL 30 31, bufGL 32 33,
      { D3D11 := none, OpenGL := some { objId := 21, colorBufferName := 20 } }],
    nextId := 23 }

/-- Witness for C8: concrete runs for eye 0, eye 1 and a sequence without
eye 0. -/
theorem constructBuffersOpenGL_framebuffer_only_eye0_witness :
    (∃ acts st', ConstructBuffersOpenGL envBase 0 stLiveGL = some (acts, st') ∧
      (acts.filter Action.isGenFramebuffers).length = 1 ∧
      st'.frameBuffer = some stLiveGL.nextId) ∧
    (∃ acts st', ConstructBuffersOpenGL envBase 1 stLiveGL = some (acts, st') ∧
      (acts.filter Action.isGenFramebuffers).length = 0 ∧
      st'.frameBuffer = stLiveGL.frameBuffer) ∧
    stAfterGL1.frameBuffer = stLiveGL.frameBuffer :=
  ⟨constructBuffersOpenGL_framebuffer_only_eye0.1 envBase stLiveGL 1 riD3D
      (by rfl) (by decide) (by rfl),
    constructBuffersOpenGL_framebuffer_only_eye0.2.1 envBase 1 stLiveGL 1 riD3D
      (by decide) (by decide) (by rfl) (by decide) (by rfl),
    constructBuffersOpenGL_framebuffer_only_eye0.2.2 envBase [1] stLiveGL stAfterGL1
      (by decide) (by decide)⟩

/-- The environment whose queried renderer kind matches no compiled-in
backend. -/
def envNullRenderer : Env := { envBase with getRenderer := .kUnityGfxRendererNull }

/-- Claim C10: a Shutdown device event dispatches on the backend kind captured
at entry -- the previously active backend's handler still runs even though the
stored kind is reset to null -- while an Init event dispatches on the freshly
queried kind regardless of the prior stored kind. -/
theorem onGraphicsDeviceEvent_shutdown_uses_prior_kind :
    (∀ (env : Env) (st : PluginState),
      st.s_DeviceType = .kUnityGfxRendererD3D11 →
      (deleteManager st.render st.allocated).isSome →
      ∃ acts st',
        OnGraphicsDeviceEvent env .kUnityGfxDeviceEventShutdown st = some (acts, st') ∧
        Action.invokeD3DHandler .kUnityGfxDeviceEventShutdown ∈ acts ∧
        st'.s_DeviceType = .kUnityGfxRendererNull) ∧
    (∀ (env : Env) (st : PluginState),
      st.s_DeviceType = .kUnityGfxRendererOpenGL →
      ∃ acts st',
        OnGraphicsDeviceEvent env .kUnityGfxDeviceEventShutdown st = some (acts, st') ∧
        Action.invokeGLHandler .kUnityGfxDeviceEventShutdown ∈ acts ∧
        st'.s_DeviceType = .kUnityGfxRendererNull) ∧
    (∀ (env : Env) (st : PluginState),
      env.getRenderer = .kUnityGfxRendererD3D11 →
      ∃ acts st',
        OnGraphicsDeviceEvent env .kUnityGfxDeviceEventInit st = some (acts, st') ∧
        Action.invokeD3DHandler .kUnityGfxDeviceEventInit ∈ acts ∧
        st'.s_DeviceType = .kUnityGfxRendererD3D11) ∧
    (∀ (env : Env) (st : PluginState),
      ¬ env.getRenderer = .kUnityGfxRendererOpenGL →
      ¬ env.getRenderer = .kUnityGfxRendererD3D11 →
      ∃ st',
        OnGraphicsDeviceEvent env .kUnityGfxDeviceEventInit st = some ([], st') ∧
        st'.s_DeviceType = env.getRenderer) := by
  refine ⟨?_, ?_, ?_, ?_⟩
  · intro env st hdev hdel
    obtain ⟨alloc, halloc⟩ := Option.isSome_iff_exists.mp hdel
    refine ⟨[Action.invokeD3DHandler .kUnityGfxDeviceEventShutdown,
        Action.deleteManagerCall st.render],
      { st with
        s_DeviceType := .kUnityGfxRendererNull,
        allocated := alloc }, ?_, ?_, rfl⟩
    · simp [OnGraphicsDeviceEvent, DoEventGraphicsDeviceD3D11, hdev, halloc]
    · simp
  · intro env st hdev
    refine ⟨[Action.invokeGLHandler .kUnityGfxDeviceEventShutdown],
      { st with s_DeviceType := .kUnityGfxRendererNull }, ?_, ?_, rfl⟩
    · simp [OnGraphicsDeviceEvent, DoEventGraphicsDeviceOpenGL, hdev]
    · simp
  · intro env st hdev
    refine ⟨[Action.invokeD3DHandler .kUnityGfxDeviceEventInit],
      { st with
        s_DeviceType := .kUnityGfxRendererD3D11,
        library := some { device := env.getDevice, context := env.getImmediateContext } },
      ?_, ?_, rfl⟩
    · simp [OnGraphicsDeviceEvent, DoEventGraphicsDeviceD3D11, hdev]
    · simp
  · intro env st h1 h2
    refine ⟨{ st with s_DeviceType := env.getRenderer }, ?_, rfl⟩
    simp [OnGraphicsDeviceEvent, h1, h2]

/-- Witness for C10: the four dispatch facts at concrete states. -/
theorem onGraphicsDeviceEvent_shutdown_uses_prior_kind_witness :
    (∃ acts st',
      OnGraphicsDeviceEvent envBase .kUnityGfxDeviceEventShutdown stLive =
        some (acts, st') ∧
      Action.invokeD3DHandler .kUnityGfxDeviceEventShutdown ∈ acts ∧
      st'.s_DeviceType = .kUnityGfxRendererNull) ∧
    (∃ acts st',
      OnGraphicsDeviceEvent envBase .kUnityGfxDeviceEventShutdown stLiveGL =
        some (acts, st') ∧
      Action.invokeGLHandler .kUnityGfxDeviceEventShutdown ∈ acts ∧
      st'.s_DeviceType = .kUnityGfxRendererNull) ∧
    (∃ acts st',
      OnGraphicsDeviceEvent envBase .kUnityGfxDeviceEventInit stNullKind =
        some (acts, st') ∧
      Action.invokeD3DHandler .kUnityGfxDeviceEventInit ∈ acts ∧
      st'.s_DeviceType = .kUnityGfxRendererD3D11) ∧
    (∃ st',
      OnGraphicsDeviceEvent envNullRenderer .kUnityGfxDeviceEventInit stLive =
        some ([], st') ∧
      st'.s_DeviceType = envNullRenderer.getRenderer) :=
  ⟨onGraphicsDeviceEvent_shutdown_uses_prior_kind.1 envBase stLive (by rfl) (by decide),
    onGraphicsDeviceEvent_shutdown_uses_prior_kind.2.1 envBase stLiveGL (by rfl),
    onGraphicsDeviceEvent_shutdown_uses_prior_kind.2.2.1 envBase stNullKind (by rfl),
    onGraphicsDeviceEvent_shutdown_uses_prior_kind.2.2.2 envNullRenderer stLive
      (by decide) (by decide)⟩

end Osvr
